import Mathlib

/-!
# Verification of the surge-examples run-configuration and plot-specification scripts

Shallow embedding of the two Python scripts of the repository:

* `atlantic/sandy/setrun.py` — builds a `ClawRunData` configuration aggregate
  (domain, timestepping, AMR, regions, gauges, geo/surge/friction data) and,
  when run as a script, serializes it once via `rundata.write()`.
* `mangkhut/setplot.py` — builds a declarative list of figure descriptors from
  parameter files read back from a completed run.

Python floats are modelled as `ℚ` (every literal appearing in the scripts is
exactly representable in the model and no rounding-sensitive arithmetic
occurs), Python `int()` applied to a float as truncation toward zero, and
fallible code as `Except`.
-/

namespace SurgeExamples

/-- Python's `int()` applied to a (real-valued) number: truncation toward
zero.  On a rational `num/den` (with `den > 0`) this is `num.tdiv den`. -/
def pyInt (q : ℚ) : ℤ := q.num.tdiv q.den

theorem pyInt_of_nonneg {q : ℚ} (h : 0 ≤ q) : pyInt q = ⌊q⌋ := by
  rw [pyInt, Rat.floor_def, Int.tdiv_eq_ediv (Rat.num_nonneg.mpr h) (Int.natCast_nonneg _)]

/-- The time conversion `days2seconds(days) = days * 60.0**2 * 24.0` (setrun.py). -/
def days2seconds (days : ℚ) : ℚ := days * 60 ^ 2 * 24

/-- The grid-density factor `degree_factor = 4` of setrun.py. -/
def degree_factor : ℤ := 4

/-- The expression `int(upper - lower) * degree_factor`: the per-axis grid-cell count
computed by setrun (setrun.py, lines 93-95). -/
def setrun_num_cells (lower upper : ℚ) : ℤ :=
  pyInt (upper - lower) * degree_factor

/-- The expression `int((tfinal - t0) * recurrence / (60**2 * 24))`: the output-frame count
computed by setrun (setrun.py, lines 147-148). -/
def setrun_num_output_times (t0 tfinal recurrence : ℚ) : ℤ :=
  pyInt ((tfinal - t0) * recurrence / (60 ^ 2 * 24))

theorem pyInt_intCast (n : ℤ) : pyInt (n : ℚ) = n := by
  simp [pyInt]

theorem pyInt_of_neg {q : ℚ} (h : q < 0) : pyInt q = ⌈q⌉ := by
  have hnum : 0 ≤ (-q.num) := by
    have := Rat.num_nonneg.mpr (le_of_lt (neg_pos.mpr h))
    rwa [Rat.num_neg_eq_neg_num] at this
  calc pyInt q = -((-q.num).tdiv q.den) := by rw [pyInt, ← Int.neg_tdiv, neg_neg]
    _ = -((-q.num) / (q.den : ℤ)) := by
        rw [Int.tdiv_eq_ediv hnum (Int.natCast_nonneg _)]
    _ = -⌊-q⌋ := by rw [Rat.floor_def, Rat.num_neg_eq_neg_num, Rat.den_neg_eq_den]
    _ = ⌈q⌉ := by rw [← Int.ceil_neg, neg_neg]

/-- Python's `str.lower()` restricted to the ASCII range (all strings the
scripts compare against are ASCII). -/
def pyLower (s : String) : String := ⟨s.data.map Char.toLower⟩

/-! ## The configuration data model (mirroring the clawpack objects populated
by `setrun.py`; only fields the script assigns are modelled) -/

/-- A refinement region `[minlevel, maxlevel, t1, t2, x1, x2, y1, y2]`
appended to `rundata.regiondata.regions`. -/
structure RegionSpec where
  minlevel : ℤ
  maxlevel : ℤ
  t1 : ℚ
  t2 : ℚ
  x1 : ℚ
  x2 : ℚ
  y1 : ℚ
  y2 : ℚ

/-- A gauge `[gaugeno, x, y, t1, t2]` appended to `rundata.gaugedata.gauges`. -/
structure GaugeSpec where
  gaugeno : ℤ
  x : ℚ
  y : ℚ
  t1 : ℚ
  t2 : ℚ

/-- A topography file `[topotype, minlevel, maxlevel, t1, t2, fname]`
appended to `rundata.topo_data.topofiles`. -/
structure TopoSpec where
  topotype : ℤ
  minlevel : ℤ
  maxlevel : ℤ
  t1 : ℚ
  t2 : ℚ
  fname : String

/-- A friction-region depth threshold; `np.infty` and `-np.infty` appear in
the source's threshold list, so the entries live in `ℚ` extended by the two
infinities. -/
inductive DepthBound where
  | neg_inf : DepthBound
  | pos_inf : DepthBound
  | val : ℚ → DepthBound

/-- A variable-friction region `[lower, upper, depths, coefficients]`
appended to `rundata.friction_data.friction_regions`. -/
structure FrictionRegion where
  lower : ℚ × ℚ
  upper : ℚ × ℚ
  depths : List DepthBound
  coefficients : List ℚ

/-- The fields of `rundata.clawdata` assigned by `setrun`. -/
structure ClawInputData where
  num_dim : ℤ
  lower : ℚ × ℚ
  upper : ℚ × ℚ
  num_cells : ℤ × ℤ
  num_eqn : ℤ
  num_aux : ℤ
  capa_index : ℤ
  t0 : ℚ
  restart : Bool
  restart_file : String
  output_style : ℤ
  tfinal : ℚ
  num_output_times : ℤ
  output_t0 : Bool
  output_format : String
  output_q_components : String
  output_aux_components : String
  output_aux_onlyonce : Bool
  verbosity : ℤ
  dt_variable : Bool
  dt_initial : ℚ
  dt_max : ℚ
  cfl_desired : ℚ
  cfl_max : ℚ
  steps_max : ℤ
  order : ℤ
  dimensional_split : String
  transverse_waves : ℤ
  num_waves : ℤ
  limiter : List String
  use_fwaves : Bool
  source_split : String
  num_ghost : ℤ
  bc_lower : String × String
  bc_upper : String × String
  checkpt_style : ℤ

/-- The fields of `rundata.amrdata` assigned by `setrun`. -/
structure AmrData where
  amr_levels_max : ℤ
  refinement_ratios_x : List ℤ
  refinement_ratios_y : List ℤ
  refinement_ratios_t : List ℤ
  aux_type : List String
  flag_richardson : Bool
  flag2refine : Bool
  regrid_interval : ℤ
  regrid_buffer_width : ℤ
  clustering_cutoff : ℚ
  verbosity_regrid : ℤ
  dprint : Bool
  eprint : Bool
  edebug : Bool
  gprint : Bool
  nprint : Bool
  pprint : Bool
  rprint : Bool
  sprint : Bool
  tprint : Bool
  uprint : Bool

/-- The fields of `rundata.geo_data` assigned by `setgeo`. -/
structure GeoData where
  gravity : ℚ
  coordinate_system : ℤ
  earth_radius : ℚ
  rho : ℚ
  rho_air : ℚ
  ambient_pressure : ℚ
  coriolis_forcing : Bool
  friction_forcing : Bool
  friction_depth : ℚ
  sea_level : ℚ
  dry_tolerance : ℚ

/-- The fields of `rundata.refinement_data` assigned by `setgeo`. -/
structure RefinementData where
  wave_tolerance : ℚ
  speed_tolerance : List ℚ
  deep_depth : ℚ
  max_level_deep : ℤ
  variable_dt_refinement_ratios : Bool

/-- The fields of `rundata.surge_data` assigned by `setgeo`. -/
structure SurgeData where
  wind_forcing : Bool
  drag_law : ℤ
  pressure_forcing : Bool
  display_landfall_time : Bool
  wind_refine : List ℚ
  R_refine : List ℚ
  storm_specification_type : String
  storm_file : String

/-- The fields of `rundata.friction_data` assigned by `setgeo`. -/
structure FrictionData where
  variable_friction : Bool
  friction_regions : List FrictionRegion

/-- The `ClawRunData` aggregate: the sub-configuration objects of the rundata
object that `setrun.py` populates.  `geo_data` is optional because `setgeo`
guards its access with a `try/except` (a non-geoclaw rundata lacks it). -/
structure ClawRunData where
  clawdata : ClawInputData
  amrdata : AmrData
  regions : List RegionSpec
  gauges : List GaugeSpec
  geo_data : Option GeoData
  refinement_data : RefinementData
  topofiles : List TopoSpec
  qinit_type : ℤ
  qinitfiles : List (ℤ × ℤ × String)
  fixedgrids : List (List ℚ)
  surge_data : SurgeData
  friction_data : FrictionData

/-- The error taxonomy of the spec's §7 as it applies to the two fallible
steps of `setrun.py`: the package-name assertion (line 49) and the
`geo_data` attribute access in `setgeo` (lines 391-395). -/
inductive ConfigurationError where
  | wrongPackage : ConfigurationError
  | missingGeoData : ConfigurationError

/-! ## `setrun.py` as a pure builder -/

/-- Stands for the library-initialized geoclaw defaults of `rundata.geo_data`
after `ClawRunData(claw_pkg, num_dim)`: every modelled field is overwritten
by `setgeo`, so the initial values are immaterial. -/
def initial_geo_data : GeoData :=
  { gravity := 0, coordinate_system := 0, earth_radius := 0, rho := 0,
    rho_air := 0, ambient_pressure := 0, coriolis_forcing := false,
    friction_forcing := false, friction_depth := 0, sea_level := 0,
    dry_tolerance := 0 }

/-- Library-initialized defaults of `rundata.refinement_data` (every modelled
field is overwritten by `setgeo`). -/
def initial_refinement_data : RefinementData :=
  { wave_tolerance := 0, speed_tolerance := [], deep_depth := 0,
    max_level_deep := 0, variable_dt_refinement_ratios := false }

/-- Library-initialized defaults of `rundata.surge_data` (every modelled
field is overwritten by `setgeo`). -/
def initial_surge_data : SurgeData :=
  { wind_forcing := false, drag_law := 0, pressure_forcing := false,
    display_landfall_time := false, wind_refine := [], R_refine := [],
    storm_specification_type := "", storm_file := "" }

/-- The `rundata.clawdata` contents assigned by `setrun` (setrun.py,
lines 76-287). -/
def sandy_clawdata : ClawInputData where
  num_dim := 2
  lower := (-88, 15)                -- west longitude, south latitude
  upper := (-55, 45)                -- east longitude, north latitude
  num_cells := (setrun_num_cells (-88) (-55), setrun_num_cells 15 45)
  num_eqn := 3
  num_aux := 3 + 1 + 3
  capa_index := 2
  t0 := days2seconds (-2)
  restart := false
  restart_file := "fort.chk00043"
  output_style := 1
  tfinal := days2seconds 1
  -- recurrence = 24 output occurrences per day
  num_output_times := setrun_num_output_times (days2seconds (-2)) (days2seconds 1) 24
  output_t0 := true
  output_format := "ascii"
  output_q_components := "all"
  output_aux_components := "all"
  output_aux_onlyonce := false
  verbosity := 4
  dt_variable := true
  dt_initial := 0.016
  dt_max := 10 ^ 99                 -- 1e+99
  cfl_desired := 0.75
  cfl_max := 1.0
  steps_max := 2 ^ 16
  order := 1
  dimensional_split := "unsplit"
  transverse_waves := 2
  num_waves := 3
  limiter := ["mc", "mc", "mc"]
  use_fwaves := true
  source_split := "godunov"
  num_ghost := 2
  bc_lower := ("extrap", "extrap")
  bc_upper := ("extrap", "extrap")
  checkpt_style := 0

/-- The `rundata.amrdata` contents assigned by `setrun` (setrun.py,
lines 297-348). -/
def sandy_amrdata : AmrData where
  amr_levels_max := 6
  refinement_ratios_x := [2, 2, 2, 6, 8]
  refinement_ratios_y := [2, 2, 2, 6, 8]
  refinement_ratios_t := [2, 2, 2, 6, 8]
  aux_type := ["center", "capacity", "yleft", "center", "center", "center",
               "center", "center", "center"]
  flag_richardson := false
  flag2refine := true
  regrid_interval := 4
  regrid_buffer_width := 2
  clustering_cutoff := 0.700000
  verbosity_regrid := 0
  dprint := false
  eprint := false
  edebug := false
  gprint := false
  nprint := false
  pprint := false
  rprint := false
  sprint := false
  tprint := false
  uprint := false

/-- The rundata aggregate as populated by the body of `setrun` up to (and
not including) the call `rundata = setgeo(rundata)`: clawdata and amrdata
assignments, region appends and gauge appends. -/
def sandy_rundata_base : ClawRunData where
  clawdata := sandy_clawdata
  amrdata := sandy_amrdata
  regions :=
    [⟨1, 6, days2seconds (-0.45), days2seconds 0.10, -74.1, -73.7, 40.55, 48.5⟩,
     ⟨1, 5, days2seconds 0.10, days2seconds 1, -74.2, -73.7, 40.55, 48.5⟩]
  gauges :=
    [⟨1, -74.013, 40.7, sandy_clawdata.t0, sandy_clawdata.tfinal⟩,       -- battery
     ⟨2, -73.77, 40.81, sandy_clawdata.t0, sandy_clawdata.tfinal⟩,       -- Kings point
     ⟨3, -74.14166, 40.6367, sandy_clawdata.t0, sandy_clawdata.tfinal⟩]  -- Bergen Point West Reach
  geo_data := some initial_geo_data
  refinement_data := initial_refinement_data
  topofiles := []
  qinit_type := 0
  qinitfiles := []
  fixedgrids := []
  surge_data := initial_surge_data
  friction_data := { variable_friction := false, friction_regions := [] }

/-- The pure content of `setgeo` (setrun.py, lines 397-524): the field
assignments and list appends it performs on its argument.  The storm-track
ingestion side effects interleaved in the source (remote fetch, gunzip,
`Storm` parse / time offset / write) are modelled by the Storm-Track
Ingestor section below; the configuration they leave behind is the
`surge_data.storm_file` path.  The `os.getcwd()` prefix of `storm_file` (an
environment value, not configuration) is not modelled. -/
def setgeo_update (rundata : ClawRunData) : ClawRunData :=
  { rundata with
    geo_data := some
      { gravity := 9.81
        coordinate_system := 2
        earth_radius := 6367.5e3
        rho := 1025.0
        rho_air := 1.15
        ambient_pressure := 101.3e3
        coriolis_forcing := true
        friction_forcing := true
        friction_depth := 1e10
        sea_level := 0.33
        dry_tolerance := 1.e-2 }
    refinement_data :=
      { wave_tolerance := 1.0
        speed_tolerance := [1.0, 2.0, 3.0, 4.0]
        deep_depth := 300.0
        max_level_deep := 4
        variable_dt_refinement_ratios := true }
    topofiles :=
      [⟨3, 1, 3, days2seconds (-2), days2seconds 1, "../bathy/atlantic_1min.tt3"⟩,
       ⟨3, 1, 3, days2seconds (-2), days2seconds 1, "../bathy/newyork_3s.tt3"⟩,
       ⟨4, 1, 6, days2seconds (-0.45), days2seconds 0.46, "../bathy/nc41x00_74x00.nc"⟩,
       ⟨4, 1, 6, days2seconds (-0.45), days2seconds 0.46, "../bathy/nc40x75_74x00.nc"⟩,
       ⟨4, 1, 6, days2seconds (-0.45), days2seconds 0.46, "../bathy/nc40x50_74x00.nc"⟩,
       ⟨4, 1, 6, days2seconds (-0.45), days2seconds 0.46, "../bathy/nc40x75_73x75.nc"⟩]
    qinit_type := 0
    qinitfiles := []
    fixedgrids := []
    surge_data :=
      { wind_forcing := true
        drag_law := 1
        pressure_forcing := true
        display_landfall_time := true
        wind_refine := [20.0, 40.0, 60.0]
        R_refine := [60.0e3, 40e3, 20e3]
        storm_specification_type := "holland80"
        storm_file := "sandy.storm" }
    friction_data :=
      { variable_friction := true
        friction_regions := rundata.friction_data.friction_regions ++
          [⟨rundata.clawdata.lower, rundata.clawdata.upper,
            [DepthBound.pos_inf, DepthBound.val 0.0, DepthBound.neg_inf],
            [0.050, 0.025]⟩] } }

/-- The function `setgeo` (setrun.py, lines 384-524): the guarded `geo_data` access
followed by the pure update.  A rundata lacking the `geo_data` attribute
makes it raise (`AttributeError`, the spec's missing-sub-configuration
`ConfigurationError`); nothing is caught locally. -/
def setgeo (rundata : ClawRunData) : Except ConfigurationError ClawRunData :=
  match rundata.geo_data with
  | none => Except.error ConfigurationError.missingGeoData
  | some _ => Except.ok (setgeo_update rundata)

/-- The function `setrun` (setrun.py, lines 34-378): assert the package name (lowered)
is `geoclaw`, populate the aggregate, then hand it to `setgeo`. -/
def setrun (claw_pkg : String) : Except ConfigurationError ClawRunData :=
  if pyLower claw_pkg = "geoclaw" then setgeo sandy_rundata_base
  else Except.error ConfigurationError.wrongPackage

/-- The fully populated configuration returned by `setrun('geoclaw')`. -/
def sandy_rundata : ClawRunData := setgeo_update sandy_rundata_base

/-- Events of the `__main__` block (setrun.py, lines 529-537): building the
configuration via `setrun`, and the single serialization `rundata.write()`. -/
inductive MainEvent where
  | build : ClawRunData → MainEvent
  | write_data : ClawRunData → MainEvent

/-- Whether an event is the serialization call. -/
def MainEvent.isWrite : MainEvent → Bool
  | MainEvent.build _ => false
  | MainEvent.write_data _ => true

/-- Dispatch on `sys.argv`: with exactly one script argument `setrun` gets
it as `claw_pkg`, otherwise `setrun()` runs with its default `'geoclaw'`. -/
def setrun_args (args : List String) : Except ConfigurationError ClawRunData :=
  match args with
  | [pkg] => setrun pkg
  | _ => setrun "geoclaw"

/-- The `__main__` block as an event trace: `rundata = setrun(...)` followed
by `rundata.write()`. -/
def main_trace (args : List String) : Except ConfigurationError (List MainEvent) :=
  (setrun_args args).map
    (fun rundata => [MainEvent.build rundata, MainEvent.write_data rundata])

/-! ## Storm-Track Ingestor

The storm-track steps of `setgeo` (setrun.py, lines 489-506) call into the
external clawpack library: `clawutil.data.get_remote_file` and the
`Storm` class.  That code is not part of this repository, so these steps are
modelled from the spec (§4.2). -/

/-- Modelled from the spec: one record of a `StormTrack`, the "time series
of storm center/intensity records" with "per-timestep position, pressure,
wind radius" parsed from the best-track file by the external `Storm` class. -/
structure StormRecord where
  t : ℚ
  latitude : ℚ
  longitude : ℚ
  central_pressure : ℚ
  max_wind_radius : ℚ

/-- Modelled from the spec: the landfall time-offset correction applied by
`sandy.time_offset = ...; sandy.write(...)` (setrun.py, lines 504-506) via
the external `Storm` class — "a pure shift, not a resample: all records
shift uniformly; no interpolation". -/
def apply_time_offset (Δ : ℚ) (track : List StormRecord) : List StormRecord :=
  track.map (fun r => { r with t := r.t + Δ })

/-- Modelled from the spec: the observable state of the remote-fetch step of
`clawutil.data.get_remote_file` (setrun.py, lines 490-492) — the local copy
of the compressed best-track file and a count of network fetches. -/
structure FetchState where
  local_file : Option (List ℕ)
  network_calls : ℕ

/-- Modelled from the spec: `get_remote_file` — "fetch a remote compressed
best-track file (idempotent — skip if already present locally)". -/
def get_remote_file (remote : List ℕ) (s : FetchState) : FetchState :=
  match s.local_file with
  | some _ => s
  | none => { local_file := some remote, network_calls := s.network_calls + 1 }

/-! ## `setplot.py` as a pure builder

`mangkhut/setplot.py` reads the run's emitted parameter files and builds an
ordered list of figure descriptors.  The values read back (the domain bounds
of `claw.data` and the two forcing flags of `surge.data`) are parameters of
the model; each figure descriptor records the attributes the script sets on
the figure and its axes. -/

/-- A named region of interest of `setplot.py`'s `regions` mapping:
bounding box plus canvas size. -/
structure PlotRegion where
  xlimits : ℚ × ℚ
  ylimits : ℚ × ℚ
  figsize : ℚ × ℚ

/-- A figure descriptor: the attributes `setplot` sets on a
`plotfigure` and its single `plotaxes`.  `show_flag` models the figure's
`show` attribute (`show` is a Lean keyword); it defaults to true in the
library and is assigned only for the Pressure / Wind Speed / gauge figures. -/
structure PlotFigure where
  name : String
  kwargs_figsize : Option (ℚ × ℚ)
  show_flag : Bool
  title : String
  xlimits : ℚ × ℚ
  ylimits : ℚ × ℚ

/-- The `regions` mapping of `setplot` (setplot.py, lines 88-99), in
insertion order; the Coast entry carries the domain bounds read back from
`claw.data`. -/
def setplot_regions (lower upper : ℚ × ℚ) : List (String × PlotRegion) :=
  [("Coast", ⟨(lower.1, upper.1), (lower.2, upper.2), (8, 7.5)⟩),
   ("Zhapo Station", ⟨(111.71666667, 111.91666667), (21.48333333, 21.68333333), (6, 6)⟩),
   ("Landfall", ⟨(112.26, 112.86), (21.3, 21.7), (6, 4)⟩),
   ("Quarry Bay", ⟨(114.11333333, 114.31333333), (22.19111111, 22.39111111), (6, 6)⟩)]

/-- The Surface figure built for one region (setplot.py, lines 103-117). -/
def surface_figure (name : String) (r : PlotRegion) : PlotFigure :=
  { name := "Surface - " ++ name, kwargs_figsize := some r.figsize,
    show_flag := true, title := "Surface",
    xlimits := r.xlimits, ylimits := r.ylimits }

/-- The Currents (speed) figure built for one region (setplot.py,
lines 119-133). -/
def currents_figure (name : String) (r : PlotRegion) : PlotFigure :=
  { name := "Currents - " ++ name, kwargs_figsize := some r.figsize,
    show_flag := true, title := "Currents",
    xlimits := r.xlimits, ylimits := r.ylimits }

/-- One iteration of the `for (name, region_dict) in regions.items()` loop:
the Surface figure, then the Currents figure. -/
def region_figures (e : String × PlotRegion) : List PlotFigure :=
  [surface_figure e.1 e.2, currents_figure e.1 e.2]

/-- The Pressure-field figure (setplot.py, lines 138-148); its `show` is
`surge_data.pressure_forcing and True` and its axes take the Coast region's
limits. -/
def pressure_figure (lower upper : ℚ × ℚ) (pressure_forcing : Bool) : PlotFigure :=
  { name := "Pressure", kwargs_figsize := none,
    show_flag := pressure_forcing && true, title := "Pressure Field",
    xlimits := (lower.1, upper.1), ylimits := (lower.2, upper.2) }

/-- The Wind-field figure (setplot.py, lines 151-161); its `show` is
`surge_data.wind_forcing and True` and its axes take the Coast region's
limits. -/
def wind_figure (lower upper : ℚ × ℚ) (wind_forcing : Bool) : PlotFigure :=
  { name := "Wind Speed", kwargs_figsize := none,
    show_flag := wind_forcing && true, title := "Wind Field",
    xlimits := (lower.1, upper.1), ylimits := (lower.2, upper.2) }

/-- The per-gauge surface time-series figure (setplot.py, lines 166-198). -/
def gauge_surfaces_figure : PlotFigure :=
  { name := "Gauge Surfaces", kwargs_figsize := none, show_flag := true,
    title := "Surface", xlimits := (-2.25, 0.75), ylimits := (-1, 4) }

/-- The gauge-location map figure (setplot.py, lines 210-223). -/
def gauge_locations_figure : PlotFigure :=
  { name := "Gauge Locations", kwargs_figsize := none, show_flag := true,
    title := "Gauge Locations", xlimits := (111.0, 115.0), ylimits := (21.0, 22.5) }

/-- The ordered figure-descriptor list built by `setplot`, as a function of
the values read back from the run's parameter files: the domain bounds of
`claw.data` and the `pressure_forcing` / `wind_forcing` flags of
`surge.data`. -/
def setplot_figures (lower upper : ℚ × ℚ)
    (pressure_forcing wind_forcing : Bool) : List PlotFigure :=
  (setplot_regions lower upper).flatMap region_figures ++
    [pressure_figure lower upper pressure_forcing,
     wind_figure lower upper wind_forcing,
     gauge_surfaces_figure,
     gauge_locations_figure]

/-! ## Claims -/

/-- C1: for all valid domain bounds (lower < upper on an axis), the
grid-cell count computed by setrun on that axis equals
`floor(upper - lower) * density_factor` with `density_factor = 4`; in
particular, for west = -88.0 and east = -55.0 the computed `num_cells[0]`
is 132. -/
theorem C1_num_cells_floor_density :
    (∀ lower upper : ℚ, lower < upper →
      setrun_num_cells lower upper = ⌊upper - lower⌋ * 4) ∧
    sandy_clawdata.num_cells.1 = 132 := by
  constructor
  · intro lower upper h
    rw [setrun_num_cells, pyInt_of_nonneg (by linarith)]
    rfl
  · show setrun_num_cells (-88) (-55) = 132
    rw [setrun_num_cells, show (-55 : ℚ) - (-88) = ((33 : ℤ) : ℚ) by norm_num,
        pyInt_intCast]
    decide

/-- Witness for C1 at lower = -88, upper = -55. -/
theorem C1_num_cells_floor_density_witness :
    (-88 : ℚ) < -55 ∧ setrun_num_cells (-88) (-55) = ⌊(-55 : ℚ) - (-88)⌋ * 4 :=
  ⟨by decide, C1_num_cells_floor_density.1 (-88) (-55) (by decide)⟩

/-- C2 counterexample: at the time window t0 = half a day, tfinal = 0 with
recurrence 1 the code computes `int(-1/2) = 0`, while the claimed
`floor((tfinal - t0) * recurrence / seconds_per_day)` is -1: the code
truncates toward zero rather than flooring. -/
theorem C2_output_times_counterexample :
    setrun_num_output_times (days2seconds (1/2)) 0 1 = 0 ∧
    ⌊((0 : ℚ) - days2seconds (1/2)) * 1 / (60 ^ 2 * 24)⌋ = -1 := by
  have harg : ((0 : ℚ) - days2seconds (1/2)) * 1 / (60 ^ 2 * 24) = -(1/2) := by
    norm_num [days2seconds]
  constructor
  · rw [setrun_num_output_times, harg, pyInt_of_neg (by norm_num), Int.ceil_eq_iff]
    constructor <;> norm_num
  · rw [harg, Int.floor_eq_iff]
    constructor <;> norm_num

/-- C2 (amended): whenever `(tfinal - t0) * recurrence` is nonnegative (in
particular for every run with t0 ≤ tfinal and a nonnegative recurrence
rate), the output-frame count computed by setrun equals
`floor((tfinal - t0) * recurrence / seconds_per_day)` with
seconds_per_day = 86400; in particular for t0 = -2 days, tfinal = 1 day and
recurrence = 24 per day, `num_output_times` is 72. -/
theorem C2_num_output_times_floor :
    (∀ t0 tfinal recurrence : ℚ, 0 ≤ (tfinal - t0) * recurrence →
      setrun_num_output_times t0 tfinal recurrence =
        ⌊(tfinal - t0) * recurrence / (60 ^ 2 * 24)⌋) ∧
    sandy_clawdata.num_output_times = 72 := by
  constructor
  · intro t0 tfinal r h
    rw [setrun_num_output_times, pyInt_of_nonneg (div_nonneg h (by norm_num))]
  · show setrun_num_output_times (days2seconds (-2)) (days2seconds 1) 24 = 72
    rw [setrun_num_output_times,
        show (days2seconds 1 - days2seconds (-2)) * 24 / (60 ^ 2 * 24) = ((72 : ℤ) : ℚ) by
          norm_num [days2seconds],
        pyInt_intCast]

/-- Witness for C2 at the Sandy run's own window and recurrence rate. -/
theorem C2_num_output_times_floor_witness :
    0 ≤ (days2seconds 1 - days2seconds (-2)) * 24 ∧
    setrun_num_output_times (days2seconds (-2)) (days2seconds 1) 24 =
      ⌊(days2seconds 1 - days2seconds (-2)) * 24 / (60 ^ 2 * 24)⌋ := by
  have h : (0 : ℚ) ≤ (days2seconds 1 - days2seconds (-2)) * 24 := by
    norm_num [days2seconds]
  exact ⟨h, C2_num_output_times_floor.1 _ _ _ h⟩

/-- C3 counterexample: the input `'GEOCLAW'` is not the expected package
name `'geoclaw'`, yet setrun accepts it and returns the full configuration
(the assertion compares the lower-cased argument). -/
theorem C3_case_insensitive_counterexample :
    "GEOCLAW" ≠ "geoclaw" ∧ setrun "GEOCLAW" = Except.ok sandy_rundata :=
  ⟨by decide, rfl⟩

/-- C3 (amended): for every input string claw_pkg whose lower-casing is not
`'geoclaw'`, setrun fails with the wrong-package ConfigurationError, and the
`__main__` trace for that argument likewise ends in the error with no
configuration built or written. -/
theorem C3_setrun_rejects_wrong_package :
    ∀ claw_pkg : String, pyLower claw_pkg ≠ "geoclaw" →
      setrun claw_pkg = Except.error ConfigurationError.wrongPackage ∧
      main_trace [claw_pkg] = Except.error ConfigurationError.wrongPackage := by
  intro s h
  have hs : setrun s = Except.error ConfigurationError.wrongPackage := by
    rw [setrun, if_neg h]
  exact ⟨hs, by simp [main_trace, setrun_args, hs, Except.map]⟩

/-- Witness for C3 at claw_pkg = 'foo'. -/
theorem C3_setrun_rejects_wrong_package_witness :
    pyLower "foo" ≠ "geoclaw" ∧
    (setrun "foo" = Except.error ConfigurationError.wrongPackage ∧
     main_trace ["foo"] = Except.error ConfigurationError.wrongPackage) :=
  ⟨by decide, C3_setrun_rejects_wrong_package "foo" (by decide)⟩

/-- C4: if the rundata aggregate passed to setgeo lacks the geo_data
sub-configuration, setgeo fails with the missing-attribute
ConfigurationError; the error is setgeo's returned result — nothing is
recovered locally, so it propagates to setgeo's caller. -/
theorem C4_setgeo_missing_geo_data :
    ∀ rundata : ClawRunData, rundata.geo_data = none →
      setgeo rundata = Except.error ConfigurationError.missingGeoData := by
  intro rd h
  simp only [setgeo, h]

/-- Witness for C4 at the Sandy aggregate stripped of its geo_data. -/
theorem C4_setgeo_missing_geo_data_witness :
    ({ sandy_rundata_base with geo_data := none } : ClawRunData).geo_data = none ∧
    setgeo { sandy_rundata_base with geo_data := none } =
      Except.error ConfigurationError.missingGeoData :=
  ⟨rfl, C4_setgeo_missing_geo_data _ rfl⟩

/-- C5 (spec-modelled): applying the landfall time-offset correction shifts
every record's timestamp by the same constant Δ — the record list keeps its
length and order, and at every index the output record is exactly the input
record with `t` replaced by `t + Δ` (so the shifted-minus-unshifted
difference is Δ and no field is resampled or interpolated). -/
theorem C5_time_offset_uniform_shift :
    ∀ (Δ : ℚ) (track : List StormRecord),
      (apply_time_offset Δ track).length = track.length ∧
      ∀ i : ℕ, i < track.length →
        ∃ r : StormRecord, track.get? i = some r ∧
          (apply_time_offset Δ track).get? i = some { r with t := r.t + Δ } ∧
          ({ r with t := r.t + Δ } : StormRecord).t - r.t = Δ := by
  intro Δ track
  refine ⟨by simp [apply_time_offset], ?_⟩
  intro i h
  refine ⟨track.get ⟨i, h⟩, List.get?_eq_get h, ?_, by simp⟩
  rw [apply_time_offset, List.get?_map, List.get?_eq_get h]
  rfl

/-- Witness for C5 on a two-record track shifted by Δ = 5, at index 1. -/
theorem C5_time_offset_uniform_shift_witness :
    (1 : ℕ) < ([⟨0, 10, 20, 30, 40⟩, ⟨6, 11, 21, 31, 41⟩] : List StormRecord).length ∧
    ∃ r : StormRecord,
      ([⟨0, 10, 20, 30, 40⟩, ⟨6, 11, 21, 31, 41⟩] : List StormRecord).get? 1 = some r ∧
      (apply_time_offset 5 [⟨0, 10, 20, 30, 40⟩, ⟨6, 11, 21, 31, 41⟩]).get? 1 =
        some { r with t := r.t + 5 } ∧
      ({ r with t := r.t + 5 } : StormRecord).t - r.t = 5 :=
  ⟨by decide,
   (C5_time_offset_uniform_shift 5 [⟨0, 10, 20, 30, 40⟩, ⟨6, 11, 21, 31, 41⟩]).2 1 (by decide)⟩

/-- C6 (spec-modelled): the remote best-track fetch step is idempotent —
when the local file already exists it performs no network I/O and returns
the state unchanged (the local file byte-for-byte identical), and running
the step twice gives the same state as running it once. -/
theorem C6_get_remote_file_idempotent :
    (∀ (remote : List ℕ) (s : FetchState) (d : List ℕ),
      s.local_file = some d →
        get_remote_file remote s = s ∧
        (get_remote_file remote s).network_calls = s.network_calls ∧
        (get_remote_file remote s).local_file = some d) ∧
    ∀ (remote : List ℕ) (s : FetchState),
      get_remote_file remote (get_remote_file remote s) = get_remote_file remote s := by
  constructor
  · intro remote s d h
    have hs : get_remote_file remote s = s := by
      simp only [get_remote_file, h]
    exact ⟨hs, by rw [hs], by rw [hs, h]⟩
  · intro remote s
    cases hl : s.local_file with
    | none => simp [get_remote_file, hl]
    | some d => simp [get_remote_file, hl]

/-- Witness for C6 at a state already holding a local file. -/
theorem C6_get_remote_file_idempotent_witness :
    (⟨some [7], 3⟩ : FetchState).local_file = some [7] ∧
    (get_remote_file [9] ⟨some [7], 3⟩ = (⟨some [7], 3⟩ : FetchState) ∧
     (get_remote_file [9] ⟨some [7], 3⟩).network_calls = (⟨some [7], 3⟩ : FetchState).network_calls ∧
     (get_remote_file [9] ⟨some [7], 3⟩).local_file = some [7]) :=
  ⟨rfl, C6_get_remote_file_idempotent.1 [9] ⟨some [7], 3⟩ [7] rfl⟩

/-- C7: each entry (name, region) of the regions mapping yields exactly two
region-bound figures — the Surface figure then the Currents figure — each
carrying that region's xlimits, ylimits and figsize; figures appear in the
mapping's iteration order (entry i's pair occupies positions 2i and 2i+1),
and an entry's two descriptors are functions of that entry alone, so the
iteration order affects only creation order, never a descriptor's
contents. -/
theorem C7_region_figure_creation :
    (∀ (lower upper : ℚ × ℚ) (pf wf : Bool),
      setplot_figures lower upper pf wf =
        (setplot_regions lower upper).flatMap region_figures ++
          [pressure_figure lower upper pf, wind_figure lower upper wf,
           gauge_surfaces_figure, gauge_locations_figure]) ∧
    (∀ l : List (String × PlotRegion),
      (l.flatMap region_figures).length = 2 * l.length) ∧
    (∀ (l : List (String × PlotRegion)) (i : ℕ) (h : i < l.length),
      (l.flatMap region_figures).get? (2 * i) =
        some (surface_figure (l.get ⟨i, h⟩).1 (l.get ⟨i, h⟩).2) ∧
      (l.flatMap region_figures).get? (2 * i + 1) =
        some (currents_figure (l.get ⟨i, h⟩).1 (l.get ⟨i, h⟩).2)) ∧
    (∀ (name : String) (r : PlotRegion),
      (surface_figure name r).xlimits = r.xlimits ∧
      (surface_figure name r).ylimits = r.ylimits ∧
      (surface_figure name r).kwargs_figsize = some r.figsize ∧
      (currents_figure name r).xlimits = r.xlimits ∧
      (currents_figure name r).ylimits = r.ylimits ∧
      (currents_figure name r).kwargs_figsize = some r.figsize) := by
  refine ⟨fun _ _ _ _ => rfl, ?_, ?_, fun _ _ => ⟨rfl, rfl, rfl, rfl, rfl, rfl⟩⟩
  · intro l
    induction l with
    | nil => rfl
    | cons e tl ih =>
      show (region_figures e ++ tl.flatMap region_figures).length = 2 * (tl.length + 1)
      rw [List.length_append, ih]
      show 2 + 2 * tl.length = 2 * (tl.length + 1)
      ring
  · intro l
    induction l with
    | nil => intro i h; exact absurd h (Nat.not_lt_zero i)
    | cons e tl ih =>
      intro i h
      cases i with
      | zero => exact ⟨rfl, rfl⟩
      | succ n =>
        have hn : n < tl.length := Nat.lt_of_succ_lt_succ h
        have h1 : ((e :: tl).flatMap region_figures).get? (2 * (n + 1)) =
            (tl.flatMap region_figures).get? (2 * n) := by
          show (surface_figure e.1 e.2 :: currents_figure e.1 e.2 ::
                  tl.flatMap region_figures).get? (2 * (n + 1)) = _
          rw [show 2 * (n + 1) = 2 * n + 2 by ring]
          rfl
        have h2 : ((e :: tl).flatMap region_figures).get? (2 * (n + 1) + 1) =
            (tl.flatMap region_figures).get? (2 * n + 1) := by
          show (surface_figure e.1 e.2 :: currents_figure e.1 e.2 ::
                  tl.flatMap region_figures).get? (2 * (n + 1) + 1) = _
          rw [show 2 * (n + 1) + 1 = 2 * n + 1 + 2 by ring]
          rfl
        obtain ⟨ih1, ih2⟩ := ih n hn
        exact ⟨h1.trans ih1, h2.trans ih2⟩

/-- Witness for C7: the Landfall entry (index 2) of the concrete regions
mapping yields its Surface and Currents figures at positions 4 and 5. -/
theorem C7_region_figure_creation_witness :
    (2 : ℕ) < (setplot_regions (112, 21) (115, 23)).length ∧
    (((setplot_regions (112, 21) (115, 23)).flatMap region_figures).get? (2 * 2) =
      some (surface_figure "Landfall" ⟨(112.26, 112.86), (21.3, 21.7), (6, 4)⟩) ∧
     ((setplot_regions (112, 21) (115, 23)).flatMap region_figures).get? (2 * 2 + 1) =
      some (currents_figure "Landfall" ⟨(112.26, 112.86), (21.3, 21.7), (6, 4)⟩)) :=
  ⟨by decide,
   C7_region_figure_creation.2.2.1 (setplot_regions (112, 21) (115, 23)) 2 (by decide)⟩

/-- C8: the `__main__` block is write-once-then-serialize — whenever the
setrun dispatch produces a configuration, the trace is exactly one build
event followed by exactly one write event of the very same fully populated
aggregate, the write is the last event, and no event (in particular no
mutation) follows the serialization. -/
theorem C8_write_once_then_serialize :
    ∀ (args : List String) (rundata : ClawRunData),
      setrun_args args = Except.ok rundata →
      main_trace args =
        Except.ok [MainEvent.build rundata, MainEvent.write_data rundata] ∧
      [MainEvent.build rundata, MainEvent.write_data rundata].filter MainEvent.isWrite =
        [MainEvent.write_data rundata] ∧
      [MainEvent.build rundata, MainEvent.write_data rundata].getLast? =
        some (MainEvent.write_data rundata) := by
  intro args rd h
  exact ⟨by simp [main_trace, h, Except.map], rfl, rfl⟩

/-- Witness for C8 at an empty argument list (the `setrun()` default). -/
theorem C8_write_once_then_serialize_witness :
    setrun_args [] = Except.ok sandy_rundata ∧
    (main_trace [] =
        Except.ok [MainEvent.build sandy_rundata, MainEvent.write_data sandy_rundata] ∧
     [MainEvent.build sandy_rundata, MainEvent.write_data sandy_rundata].filter
        MainEvent.isWrite = [MainEvent.write_data sandy_rundata] ∧
     [MainEvent.build sandy_rundata, MainEvent.write_data sandy_rundata].getLast? =
        some (MainEvent.write_data sandy_rundata)) :=
  ⟨rfl, C8_write_once_then_serialize [] sandy_rundata rfl⟩

/-- C9: in the figure list built by setplot, the Pressure figure's show flag
equals the pressure_forcing flag read back from surge.data and the Wind
Speed figure's show flag equals the wind_forcing flag; both figures are
constructed (found in the list) regardless of the flags, a disabled forcing
merely marking its figure not shown. -/
theorem C9_forcing_show_flags :
    ∀ (lower upper : ℚ × ℚ) (pressure_forcing wind_forcing : Bool),
      (setplot_figures lower upper pressure_forcing wind_forcing).find?
          (fun f => f.name == "Pressure") =
        some (pressure_figure lower upper pressure_forcing) ∧
      (pressure_figure lower upper pressure_forcing).show_flag = pressure_forcing ∧
      (setplot_figures lower upper pressure_forcing wind_forcing).find?
          (fun f => f.name == "Wind Speed") =
        some (wind_figure lower upper wind_forcing) ∧
      (wind_figure lower upper wind_forcing).show_flag = wind_forcing := by
  intro lower upper pf wf
  exact ⟨rfl, Bool.and_true pf, rfl, Bool.and_true wf⟩

/-- C10: every gauge appended by setrun observes over the full simulated
time span — the three gauges have ids 1, 2, 3 in append order and each has
t1 = clawdata.t0 (= -2 days) and t2 = clawdata.tfinal (= 1 day). -/
theorem C10_gauges_full_time_span :
    (setrun "geoclaw").map
        (fun c => (c.gauges.map GaugeSpec.gaugeno,
                   c.gauges.map GaugeSpec.t1,
                   c.gauges.map GaugeSpec.t2,
                   c.clawdata.t0, c.clawdata.tfinal)) =
      Except.ok ([1, 2, 3],
                 [days2seconds (-2), days2seconds (-2), days2seconds (-2)],
                 [days2seconds 1, days2seconds 1, days2seconds 1],
                 days2seconds (-2), days2seconds 1) := rfl

end SurgeExamples
